import Mathlib

/-!
Shallow embedding of the `rust-lcd-ili9341` crate (`src/lib.rs`).

The crate is a stateless protocol encoder: a `Controller<T: Interface>`
holds one bus handle `iface` and translates each LCD command into calls
on the `Interface` trait (`write_parameters`, `read_parameters`,
`write_memory`, `read_memory`).  We model the bus as an explicit state:
a log of the transactions issued so far, plus a queue of byte responses
the (mock) bus will place into read buffers.  Every controller method
becomes a function on this state; bytes are `Nat`s, with the `u8`/`u16`
ranges of the Rust types tracked as hypotheses where a theorem needs
them.
-/

namespace Ili9341

/-- One transaction observed at the `Interface` trait boundary:
a parameter write (opcode plus data bytes), a parameter read (opcode plus
the length of the buffer to fill), or a bulk memory transfer. -/
inductive BusTrans where
  | write (command : Nat) (data : List Nat)
  | read (command : Nat) (len : Nat)
  | writeMem (data : List Nat)
  | readMem (len : Nat)
deriving Repr, DecidableEq

/-- The mock bus: `log` records every transaction in order; `pending` is
the queue of byte lists the bus will clock into successive read buffers. -/
structure BusState where
  log : List BusTrans
  pending : List (List Nat)
deriving Repr, DecidableEq

/-- The bus writes the bytes of `resp` into the front of the buffer
`buf`; positions past `resp.length` keep their old contents, and the
buffer never changes length. -/
def busFill (buf resp : List Nat) : List Nat :=
  resp.take buf.length ++ buf.drop resp.length

/-- `Interface::write_parameters(command, data)`: record the write. -/
def ifaceWriteParameters (s : BusState) (command : Nat) (data : List Nat) : BusState :=
  { s with log := s.log ++ [BusTrans.write command data] }

/-- `Interface::read_parameters(command, data)`: record the read and
fill the buffer from the next pending response (unchanged buffer if the
mock has no response queued). -/
def ifaceReadParameters (s : BusState) (command : Nat) (buf : List Nat) :
    BusState × List Nat :=
  match s.pending with
  | [] => ({ s with log := s.log ++ [BusTrans.read command buf.length] }, buf)
  | resp :: rest =>
      (⟨s.log ++ [BusTrans.read command buf.length], rest⟩, busFill buf resp)

/-- `Interface::write_memory(iterable)`: record the streamed words. -/
def ifaceWriteMemory (s : BusState) (data : List Nat) : BusState :=
  { s with log := s.log ++ [BusTrans.writeMem data] }

/-- `Interface::read_memory(data)`: record the bulk read and fill the
word buffer from the next pending response. -/
def ifaceReadMemory (s : BusState) (buf : List Nat) : BusState × List Nat :=
  match s.pending with
  | [] => ({ s with log := s.log ++ [BusTrans.readMem buf.length] }, buf)
  | resp :: rest =>
      (⟨s.log ++ [BusTrans.readMem buf.length], rest⟩, busFill buf resp)

/-- A fixed-length byte container, the model of a Rust `[u8; n]`. -/
def ByteVec (n : Nat) : Type := { l : List Nat // l.length = n }

/-- `<[u8; n]>::default()`: all zero. -/
def ByteVec.zeroed (n : Nat) : ByteVec n :=
  ⟨List.replicate n 0, List.length_replicate n 0⟩

/-- `struct DisplayIdentification { raw: [u8; 3] }` -/
structure DisplayIdentification where
  raw : ByteVec 3

def DisplayIdentification.default : DisplayIdentification := ⟨ByteVec.zeroed 3⟩

/-- `struct DisplayStatus { raw: [u8; 4] }` -/
structure DisplayStatus where
  raw : ByteVec 4

def DisplayStatus.default : DisplayStatus := ⟨ByteVec.zeroed 4⟩

/-- `struct DisplayPowerMode { raw: [u8; 1] }` -/
structure DisplayPowerMode where
  raw : ByteVec 1

def DisplayPowerMode.default : DisplayPowerMode := ⟨ByteVec.zeroed 1⟩

/-- `struct MADCtl { raw: [u8; 1] }` -/
structure MADCtl where
  raw : ByteVec 1

def MADCtl.default : MADCtl := ⟨ByteVec.zeroed 1⟩

/-- `struct PixelFormat { raw: [u8; 1] }` -/
structure PixelFormat where
  raw : ByteVec 1

def PixelFormat.default : PixelFormat := ⟨ByteVec.zeroed 1⟩

/-- `struct ImageFormat { raw: [u8; 1] }` -/
structure ImageFormat where
  raw : ByteVec 1

def ImageFormat.default : ImageFormat := ⟨ByteVec.zeroed 1⟩

/-- `struct SignalMode { raw: [u8; 1] }` -/
structure SignalMode where
  raw : ByteVec 1

def SignalMode.default : SignalMode := ⟨ByteVec.zeroed 1⟩

/-- `struct SelfDiagnosticResult { raw: [u8; 1] }` -/
structure SelfDiagnosticResult where
  raw : ByteVec 1

def SelfDiagnosticResult.default : SelfDiagnosticResult := ⟨ByteVec.zeroed 1⟩

/-- `struct MemoryAccessControl { raw: [u8; 1] }` -/
structure MemoryAccessControl where
  raw : ByteVec 1

def MemoryAccessControl.default : MemoryAccessControl := ⟨ByteVec.zeroed 1⟩

/-- `struct CtrlDisplay { raw: [u8; 1] }` -/
structure CtrlDisplay where
  raw : ByteVec 1

def CtrlDisplay.default : CtrlDisplay := ⟨ByteVec.zeroed 1⟩

/-- `enum TearingEffect { Off, VBlankOnly, HAndVBlank }` -/
inductive TearingEffect where
  | Off
  | VBlankOnly
  | HAndVBlank
deriving Repr, DecidableEq

/-- The Rust `as u8` cast on an unsigned value: truncation mod 256. -/
def u8cast (n : Nat) : Nat := n % 256

/-- `busFill` never changes the buffer's length. -/
theorem busFill_length (buf resp : List Nat) : (busFill buf resp).length = buf.length := by
  simp only [busFill, List.length_append, List.length_take, List.length_drop]
  omega

/-- A read hands back a buffer of the same length it was given. -/
theorem ifaceReadParameters_length (s : BusState) (command : Nat) (buf : List Nat) :
    (ifaceReadParameters s command buf).2.length = buf.length := by
  unfold ifaceReadParameters
  cases s.pending with
  | nil => rfl
  | cons resp rest => exact busFill_length buf resp

namespace Controller

/-- `Controller::write_command`: `self.iface.write_parameters(command, &[])`. -/
def write_command (s : BusState) (command : Nat) : BusState :=
  ifaceWriteParameters s command []

/-- `Controller::write_parameters`: forward to the interface. -/
def write_parameters (s : BusState) (command : Nat) (parameters : List Nat) : BusState :=
  ifaceWriteParameters s command parameters

/-- `Controller::read_parameters`: forward to the interface. -/
def read_parameters (s : BusState) (command : Nat) (parameters : List Nat) :
    BusState × List Nat :=
  ifaceReadParameters s command parameters

def nop (s : BusState) : BusState :=
  write_command s 0x00

def software_reset (s : BusState) : BusState :=
  write_command s 0x01

def read_display_identification (s : BusState) : BusState × DisplayIdentification :=
  let result := DisplayIdentification.default
  let p := read_parameters s 0x04 result.raw.val
  (p.1, ⟨⟨p.2, (ifaceReadParameters_length s _ result.raw.val).trans result.raw.property⟩⟩)

def read_display_status (s : BusState) : BusState × DisplayStatus :=
  let result := DisplayStatus.default
  let p := read_parameters s 0x09 result.raw.val
  (p.1, ⟨⟨p.2, (ifaceReadParameters_length s _ result.raw.val).trans result.raw.property⟩⟩)

def read_display_power_mode (s : BusState) : BusState × DisplayPowerMode :=
  let result := DisplayPowerMode.default
  let p := read_parameters s 0x0a result.raw.val
  (p.1, ⟨⟨p.2, (ifaceReadParameters_length s _ result.raw.val).trans result.raw.property⟩⟩)

def read_display_madctl (s : BusState) : BusState × MADCtl :=
  let result := MADCtl.default
  let p := read_parameters s 0x0b result.raw.val
  (p.1, ⟨⟨p.2, (ifaceReadParameters_length s _ result.raw.val).trans result.raw.property⟩⟩)

def read_pixel_format (s : BusState) : BusState × PixelFormat :=
  let result := PixelFormat.default
  let p := read_parameters s 0x0c result.raw.val
  (p.1, ⟨⟨p.2, (ifaceReadParameters_length s _ result.raw.val).trans result.raw.property⟩⟩)

def read_image_format (s : BusState) : BusState × ImageFormat :=
  let result := ImageFormat.default
  let p := read_parameters s 0x0d result.raw.val
  (p.1, ⟨⟨p.2, (ifaceReadParameters_length s _ result.raw.val).trans result.raw.property⟩⟩)

def read_signal_mode (s : BusState) : BusState × SignalMode :=
  let result := SignalMode.default
  let p := read_parameters s 0x0e result.raw.val
  (p.1, ⟨⟨p.2, (ifaceReadParameters_length s _ result.raw.val).trans result.raw.property⟩⟩)

def read_self_diagnostic_result (s : BusState) : BusState × SelfDiagnosticResult :=
  let result := SelfDiagnosticResult.default
  let p := read_parameters s 0x0f result.raw.val
  (p.1, ⟨⟨p.2, (ifaceReadParameters_length s _ result.raw.val).trans result.raw.property⟩⟩)

def enter_sleep_mode (s : BusState) : BusState :=
  write_command s 0x10

def sleep_out (s : BusState) : BusState :=
  write_command s 0x11

def partial_mode_on (s : BusState) : BusState :=
  write_command s 0x12

def normal_display_mode_on (s : BusState) : BusState :=
  write_command s 0x13

def display_inversion (s : BusState) (isOn : Bool) : BusState :=
  let command := match isOn with
    | false => 0x20
    | true => 0x21
  write_command s command

def gamma_set (s : BusState) (gc : Nat) : BusState :=
  write_parameters s 0x26 [gc]

def display (s : BusState) (isOn : Bool) : BusState :=
  let command := match isOn with
    | false => 0x28
    | true => 0x29
  write_command s command

def column_address_set (s : BusState) (sc ec : Nat) : BusState :=
  write_parameters s 0x2a [
    u8cast (sc >>> 8), u8cast (sc &&& 0xff),
    u8cast (ec >>> 8), u8cast (ec &&& 0xff)]

def page_address_set (s : BusState) (sp ep : Nat) : BusState :=
  write_parameters s 0x2b [
    u8cast (sp >>> 8), u8cast (sp &&& 0xff),
    u8cast (ep >>> 8), u8cast (ep &&& 0xff)]

def memory_write_start (s : BusState) : BusState :=
  write_command s 0x2c

def color_set (s : BusState) (data : ByteVec 128) : BusState :=
  write_parameters s 0x2d data.val

def memory_read_start (s : BusState) : BusState :=
  write_command s 0x2e

def partial_area (s : BusState) (sr er : Nat) : BusState :=
  write_parameters s 0x30 [
    u8cast (sr >>> 8), u8cast (sr &&& 0xff),
    u8cast (er >>> 8), u8cast (er &&& 0xff)]

def vertical_scrolling_definition (s : BusState) (tfa vsa bfa : Nat) : BusState :=
  write_parameters s 0x33 [
    u8cast (tfa >>> 8), u8cast (tfa &&& 0xff),
    u8cast (vsa >>> 8), u8cast (vsa &&& 0xff),
    u8cast (bfa >>> 8), u8cast (bfa &&& 0xff)]

def tearing_effect (s : BusState) (mode : TearingEffect) : BusState :=
  match mode with
  | TearingEffect.VBlankOnly => write_parameters s 0x35 [0]
  | TearingEffect.HAndVBlank => write_parameters s 0x35 [1]
  | _ => write_command s 0x34

def memory_access_control (s : BusState) (value : MemoryAccessControl) : BusState :=
  write_parameters s 0x36 value.raw.val

def vertical_scrolling_start_address (s : BusState) (vsp : Nat) : BusState :=
  write_parameters s 0x37 [u8cast (vsp >>> 8), u8cast (vsp &&& 0xff)]

def idle_mode (s : BusState) (isOn : Bool) : BusState :=
  let command := match isOn with
    | false => 0x38
    | true => 0x39
  write_command s command

def pixel_format_set (s : BusState) (value : PixelFormat) : BusState :=
  write_parameters s 0x3a value.raw.val

def write_memory_continue (s : BusState) : BusState :=
  write_command s 0x3c

def write_memory (s : BusState) (iterable : List Nat) : BusState :=
  ifaceWriteMemory s iterable

def read_memory_continue (s : BusState) : BusState :=
  write_command s 0x3e

def read_memory (s : BusState) (data : List Nat) : BusState × List Nat :=
  ifaceReadMemory s data

def set_tear_scanline (s : BusState) (sts : Nat) : BusState :=
  write_parameters s 0x44 [u8cast (sts >>> 8), u8cast (sts &&& 0xff)]

def get_scanline (s : BusState) : BusState × Nat :=
  let p := read_parameters s 0x45 (List.replicate 2 0)
  (p.1, (p.2.getD 0 0 <<< 8) ||| p.2.getD 1 0)

def write_display_brightness (s : BusState) (dbv : Nat) : BusState :=
  write_parameters s 0x51 [dbv]

def read_display_brightness (s : BusState) : BusState × Nat :=
  let p := read_parameters s 0x52 (List.replicate 1 0)
  (p.1, p.2.getD 0 0)

def write_ctrl_display (s : BusState) (value : CtrlDisplay) : BusState :=
  write_parameters s 0x53 value.raw.val

def read_ctrl_display (s : BusState) : BusState × CtrlDisplay :=
  let result := CtrlDisplay.default
  let p := read_parameters s 0x54 result.raw.val
  (p.1, ⟨⟨p.2, (ifaceReadParameters_length s _ result.raw.val).trans result.raw.property⟩⟩)

def write_cabc (s : BusState) (c : Nat) : BusState :=
  write_parameters s 0x55 [c]

def read_cabc (s : BusState) : BusState × Nat :=
  let p := read_parameters s 0x56 (List.replicate 1 0)
  (p.1, p.2.getD 0 0)

def write_cabc_minimum_brightness (s : BusState) (cmb : Nat) : BusState :=
  write_parameters s 0x5e [cmb]

def read_cabc_minimum_brightness (s : BusState) : BusState × Nat :=
  let p := read_parameters s 0x5f (List.replicate 1 0)
  (p.1, p.2.getD 0 0)

def read_id1 (s : BusState) : BusState × Nat :=
  let p := read_parameters s 0xda (List.replicate 1 0)
  (p.1, p.2.getD 0 0)

def read_id2 (s : BusState) : BusState × Nat :=
  let p := read_parameters s 0xdb (List.replicate 1 0)
  (p.1, p.2.getD 0 0)

def read_id3 (s : BusState) : BusState × Nat :=
  let p := read_parameters s 0xdc (List.replicate 1 0)
  (p.1, p.2.getD 0 0)

end Controller


/-- The reads' state component: log gains one entry, the head response is
consumed. -/
theorem ifaceReadParameters_fst (s : BusState) (command : Nat) (buf : List Nat) :
    (ifaceReadParameters s command buf).1
      = ⟨s.log ++ [BusTrans.read command buf.length], s.pending.tail⟩ := by
  cases s with
  | mk log pending => cases pending <;> rfl

/-- When the mock's response has exactly the buffer's length, the filled
buffer is the response itself. -/
theorem busFill_eq_self (buf resp : List Nat) (h : resp.length = buf.length) :
    busFill buf resp = resp := by
  unfold busFill
  rw [← h, List.take_length, h, List.drop_length, List.append_nil]

/-- `u8cast` is the identity on the high byte of a 16-bit value. -/
theorem u8cast_shiftRight8 (n : Nat) (h : n < 65536) : u8cast (n >>> 8) = n >>> 8 := by
  unfold u8cast
  rw [Nat.shiftRight_eq_div_pow]
  omega

/-- `u8cast` is the identity on a masked low byte. -/
theorem u8cast_and255 (n : Nat) : u8cast (n &&& 0xff) = n &&& 0xff := by
  unfold u8cast
  have h : n &&& 0xff ≤ 0xff := Nat.and_le_right
  omega

/-- Big-endian reassembly of two bytes equals the arithmetic value. -/
theorem byte_lor_eq_add (a b : Nat) (hb : b < 256) : (a <<< 8) ||| b = a * 256 + b := by
  have hb8 : b < 2 ^ 8 := hb
  have h256 : a * 256 + b = 2 ^ 8 * a + b := by ring
  rw [h256]
  apply Nat.eq_of_testBit_eq
  intro j
  rw [Nat.testBit_lor, Nat.testBit_shiftLeft, Nat.testBit_mul_pow_two_add a hb8]
  by_cases hj : j < 8
  · simp [hj, Nat.not_le_of_lt hj]
  · have hbf : b.testBit j = false := by
      apply Nat.testBit_lt_two_pow
      calc b < 2 ^ 8 := hb8
        _ ≤ 2 ^ j := Nat.pow_le_pow_right (by norm_num) (Nat.le_of_not_lt hj)
    simp [hj, Nat.le_of_not_lt hj, hbf]

/-- Syntax of one encoder invocation: one constructor per public
`Controller` method, carrying the method's arguments. -/
inductive Op where
  | nop
  | software_reset
  | read_display_identification
  | read_display_status
  | read_display_power_mode
  | read_display_madctl
  | read_pixel_format
  | read_image_format
  | read_signal_mode
  | read_self_diagnostic_result
  | enter_sleep_mode
  | sleep_out
  | partial_mode_on
  | normal_display_mode_on
  | display_inversion (isOn : Bool)
  | gamma_set (gc : Nat)
  | display (isOn : Bool)
  | column_address_set (sc ec : Nat)
  | page_address_set (sp ep : Nat)
  | memory_write_start
  | color_set (data : ByteVec 128)
  | memory_read_start
  | partial_area (sr er : Nat)
  | vertical_scrolling_definition (tfa vsa bfa : Nat)
  | tearing_effect (mode : TearingEffect)
  | memory_access_control (value : MemoryAccessControl)
  | vertical_scrolling_start_address (vsp : Nat)
  | idle_mode (isOn : Bool)
  | pixel_format_set (value : PixelFormat)
  | write_memory_continue
  | write_memory (iterable : List Nat)
  | read_memory_continue
  | read_memory (data : List Nat)
  | set_tear_scanline (sts : Nat)
  | get_scanline
  | write_display_brightness (dbv : Nat)
  | read_display_brightness
  | write_ctrl_display (value : CtrlDisplay)
  | read_ctrl_display
  | write_cabc (c : Nat)
  | read_cabc
  | write_cabc_minimum_brightness (cmb : Nat)
  | read_cabc_minimum_brightness
  | read_id1
  | read_id2
  | read_id3

/-- Run one encoder invocation against the bus, keeping only the bus
state (results of reads are dropped here; the per-method theorems cover
them). -/
def run (op : Op) (s : BusState) : BusState :=
  match op with
  | Op.nop => Controller.nop s
  | Op.software_reset => Controller.software_reset s
  | Op.read_display_identification => (Controller.read_display_identification s).1
  | Op.read_display_status => (Controller.read_display_status s).1
  | Op.read_display_power_mode => (Controller.read_display_power_mode s).1
  | Op.read_display_madctl => (Controller.read_display_madctl s).1
  | Op.read_pixel_format => (Controller.read_pixel_format s).1
  | Op.read_image_format => (Controller.read_image_format s).1
  | Op.read_signal_mode => (Controller.read_signal_mode s).1
  | Op.read_self_diagnostic_result => (Controller.read_self_diagnostic_result s).1
  | Op.enter_sleep_mode => Controller.enter_sleep_mode s
  | Op.sleep_out => Controller.sleep_out s
  | Op.partial_mode_on => Controller.partial_mode_on s
  | Op.normal_display_mode_on => Controller.normal_display_mode_on s
  | Op.display_inversion isOn => Controller.display_inversion s isOn
  | Op.gamma_set gc => Controller.gamma_set s gc
  | Op.display isOn => Controller.display s isOn
  | Op.column_address_set sc ec => Controller.column_address_set s sc ec
  | Op.page_address_set sp ep => Controller.page_address_set s sp ep
  | Op.memory_write_start => Controller.memory_write_start s
  | Op.color_set data => Controller.color_set s data
  | Op.memory_read_start => Controller.memory_read_start s
  | Op.partial_area sr er => Controller.partial_area s sr er
  | Op.vertical_scrolling_definition tfa vsa bfa =>
      Controller.vertical_scrolling_definition s tfa vsa bfa
  | Op.tearing_effect mode => Controller.tearing_effect s mode
  | Op.memory_access_control value => Controller.memory_access_control s value
  | Op.vertical_scrolling_start_address vsp =>
      Controller.vertical_scrolling_start_address s vsp
  | Op.idle_mode isOn => Controller.idle_mode s isOn
  | Op.pixel_format_set value => Controller.pixel_format_set s value
  | Op.write_memory_continue => Controller.write_memory_continue s
  | Op.write_memory iterable => Controller.write_memory s iterable
  | Op.read_memory_continue => Controller.read_memory_continue s
  | Op.read_memory data => (Controller.read_memory s data).1
  | Op.set_tear_scanline sts => Controller.set_tear_scanline s sts
  | Op.get_scanline => (Controller.get_scanline s).1
  | Op.write_display_brightness dbv => Controller.write_display_brightness s dbv
  | Op.read_display_brightness => (Controller.read_display_brightness s).1
  | Op.write_ctrl_display value => Controller.write_ctrl_display s value
  | Op.read_ctrl_display => (Controller.read_ctrl_display s).1
  | Op.write_cabc c => Controller.write_cabc s c
  | Op.read_cabc => (Controller.read_cabc s).1
  | Op.write_cabc_minimum_brightness cmb => Controller.write_cabc_minimum_brightness s cmb
  | Op.read_cabc_minimum_brightness => (Controller.read_cabc_minimum_brightness s).1
  | Op.read_id1 => (Controller.read_id1 s).1
  | Op.read_id2 => (Controller.read_id2 s).1
  | Op.read_id3 => (Controller.read_id3 s).1

/-- The bus transactions one invocation emits (read from a run on the
empty bus). -/
def opTrace (op : Op) : List BusTrans :=
  (run op ⟨[], []⟩).log

/-- Run a whole program: invocations in order, threading the bus state. -/
def runAll (ops : List Op) (s : BusState) : BusState :=
  ops.foldl (fun t op => run op t) s

/-- The bulk reads' state component. -/
theorem ifaceReadMemory_fst (s : BusState) (buf : List Nat) :
    (ifaceReadMemory s buf).1
      = ⟨s.log ++ [BusTrans.readMem buf.length], s.pending.tail⟩ := by
  cases s with
  | mk log pending => cases pending <;> rfl

/-- Every invocation appends its own transactions to the log: the trace
an invocation emits does not depend on the bus state it starts from. -/
theorem run_log (op : Op) (s : BusState) : (run op s).log = s.log ++ opTrace op := by
  cases op
  case tearing_effect mode => cases mode <;> simp [run, opTrace, Controller.nop, Controller.software_reset,
    Controller.read_display_identification, Controller.read_display_status,
    Controller.read_display_power_mode, Controller.read_display_madctl,
    Controller.read_pixel_format, Controller.read_image_format,
    Controller.read_signal_mode, Controller.read_self_diagnostic_result,
    Controller.enter_sleep_mode, Controller.sleep_out, Controller.partial_mode_on,
    Controller.normal_display_mode_on, Controller.display_inversion,
    Controller.gamma_set, Controller.display, Controller.column_address_set,
    Controller.page_address_set, Controller.memory_write_start, Controller.color_set,
    Controller.memory_read_start, Controller.partial_area,
    Controller.vertical_scrolling_definition, Controller.tearing_effect,
    Controller.memory_access_control, Controller.vertical_scrolling_start_address,
    Controller.idle_mode, Controller.pixel_format_set, Controller.write_memory_continue,
    Controller.write_memory, Controller.read_memory_continue, Controller.read_memory,
    Controller.set_tear_scanline, Controller.get_scanline,
    Controller.write_display_brightness, Controller.read_display_brightness,
    Controller.write_ctrl_display, Controller.read_ctrl_display, Controller.write_cabc,
    Controller.read_cabc, Controller.write_cabc_minimum_brightness,
    Controller.read_cabc_minimum_brightness, Controller.read_id1, Controller.read_id2,
    Controller.read_id3, Controller.write_command, Controller.write_parameters,
    Controller.read_parameters, ifaceWriteParameters, ifaceWriteMemory,
    ifaceReadParameters_fst, ifaceReadMemory_fst]
  all_goals simp [run, opTrace, Controller.nop, Controller.software_reset,
    Controller.read_display_identification, Controller.read_display_status,
    Controller.read_display_power_mode, Controller.read_display_madctl,
    Controller.read_pixel_format, Controller.read_image_format,
    Controller.read_signal_mode, Controller.read_self_diagnostic_result,
    Controller.enter_sleep_mode, Controller.sleep_out, Controller.partial_mode_on,
    Controller.normal_display_mode_on, Controller.display_inversion,
    Controller.gamma_set, Controller.display, Controller.column_address_set,
    Controller.page_address_set, Controller.memory_write_start, Controller.color_set,
    Controller.memory_read_start, Controller.partial_area,
    Controller.vertical_scrolling_definition, Controller.tearing_effect,
    Controller.memory_access_control, Controller.vertical_scrolling_start_address,
    Controller.idle_mode, Controller.pixel_format_set, Controller.write_memory_continue,
    Controller.write_memory, Controller.read_memory_continue, Controller.read_memory,
    Controller.set_tear_scanline, Controller.get_scanline,
    Controller.write_display_brightness, Controller.read_display_brightness,
    Controller.write_ctrl_display, Controller.read_ctrl_display, Controller.write_cabc,
    Controller.read_cabc, Controller.write_cabc_minimum_brightness,
    Controller.read_cabc_minimum_brightness, Controller.read_id1, Controller.read_id2,
    Controller.read_id3, Controller.write_command, Controller.write_parameters,
    Controller.read_parameters, ifaceWriteParameters, ifaceWriteMemory,
    ifaceReadParameters_fst, ifaceReadMemory_fst]

/-- C1: every 16-bit parameter write splits each `u16` argument into
most-significant byte then least-significant byte and concatenates the
bytes in argument order into one `write_parameters` call:
`column_address_set` at opcode 0x2A (4 bytes), `page_address_set` 0x2B
(4), `partial_area` 0x30 (4), `vertical_scrolling_definition` 0x33 (6),
`vertical_scrolling_start_address` 0x37 (2), `set_tear_scanline` 0x44
(2), for every `u16` argument value. -/
theorem sixteen_bit_parameter_writes (s : BusState)
    (sc ec sp ep sr er tfa vsa bfa vsp sts : Nat)
    (hsc : sc < 65536) (hec : ec < 65536) (hsp : sp < 65536) (hep : ep < 65536)
    (hsr : sr < 65536) (her : er < 65536) (htfa : tfa < 65536) (hvsa : vsa < 65536)
    (hbfa : bfa < 65536) (hvsp : vsp < 65536) (hsts : sts < 65536) :
    (Controller.column_address_set s sc ec).log
      = s.log ++ [BusTrans.write 0x2a [sc >>> 8, sc &&& 0xff, ec >>> 8, ec &&& 0xff]]
    ∧ (Controller.page_address_set s sp ep).log
      = s.log ++ [BusTrans.write 0x2b [sp >>> 8, sp &&& 0xff, ep >>> 8, ep &&& 0xff]]
    ∧ (Controller.partial_area s sr er).log
      = s.log ++ [BusTrans.write 0x30 [sr >>> 8, sr &&& 0xff, er >>> 8, er &&& 0xff]]
    ∧ (Controller.vertical_scrolling_definition s tfa vsa bfa).log
      = s.log ++ [BusTrans.write 0x33
          [tfa >>> 8, tfa &&& 0xff, vsa >>> 8, vsa &&& 0xff, bfa >>> 8, bfa &&& 0xff]]
    ∧ (Controller.vertical_scrolling_start_address s vsp).log
      = s.log ++ [BusTrans.write 0x37 [vsp >>> 8, vsp &&& 0xff]]
    ∧ (Controller.set_tear_scanline s sts).log
      = s.log ++ [BusTrans.write 0x44 [sts >>> 8, sts &&& 0xff]] := by
  refine ⟨?_, ?_, ?_, ?_, ?_, ?_⟩ <;>
    simp [Controller.column_address_set, Controller.page_address_set,
      Controller.partial_area, Controller.vertical_scrolling_definition,
      Controller.vertical_scrolling_start_address, Controller.set_tear_scanline,
      Controller.write_parameters, ifaceWriteParameters, u8cast_and255,
      u8cast_shiftRight8 sc hsc, u8cast_shiftRight8 ec hec, u8cast_shiftRight8 sp hsp,
      u8cast_shiftRight8 ep hep, u8cast_shiftRight8 sr hsr, u8cast_shiftRight8 er her,
      u8cast_shiftRight8 tfa htfa, u8cast_shiftRight8 vsa hvsa, u8cast_shiftRight8 bfa hbfa,
      u8cast_shiftRight8 vsp hvsp, u8cast_shiftRight8 sts hsts]

/-- Witness for C1 at concrete 16-bit inputs. -/
theorem sixteen_bit_parameter_writes_witness :
    (Controller.column_address_set ⟨[], []⟩ 0x1234 0x5678).log
      = [BusTrans.write 0x2a [0x12, 0x34, 0x56, 0x78]]
    ∧ (Controller.page_address_set ⟨[], []⟩ 0x9abc 0xdef0).log
      = [BusTrans.write 0x2b [0x9a, 0xbc, 0xde, 0xf0]]
    ∧ (Controller.partial_area ⟨[], []⟩ 0x0102 0x0304).log
      = [BusTrans.write 0x30 [0x01, 0x02, 0x03, 0x04]]
    ∧ (Controller.vertical_scrolling_definition ⟨[], []⟩ 0x0506 0x0708 0x090a).log
      = [BusTrans.write 0x33 [0x05, 0x06, 0x07, 0x08, 0x09, 0x0a]]
    ∧ (Controller.vertical_scrolling_start_address ⟨[], []⟩ 0x0b0c).log
      = [BusTrans.write 0x37 [0x0b, 0x0c]]
    ∧ (Controller.set_tear_scanline ⟨[], []⟩ 0xffee).log
      = [BusTrans.write 0x44 [0xff, 0xee]] := by
  simpa using sixteen_bit_parameter_writes ⟨[], []⟩
    0x1234 0x5678 0x9abc 0xdef0 0x0102 0x0304 0x0506 0x0708 0x090a 0x0b0c 0xffee
    (by decide) (by decide) (by decide) (by decide) (by decide) (by decide)
    (by decide) (by decide) (by decide) (by decide) (by decide)

/-- C2: every bare-command operation records exactly one bus write with
the documented opcode (`nop` 0x00, `software_reset` 0x01,
`enter_sleep_mode` 0x10, `sleep_out` 0x11, `partial_mode_on` 0x12,
`normal_display_mode_on` 0x13, `memory_write_start` 0x2C,
`memory_read_start` 0x2E, `write_memory_continue` 0x3C,
`read_memory_continue` 0x3E) and an empty data sequence. -/
theorem bare_commands_empty_data (s : BusState) :
    (Controller.nop s).log = s.log ++ [BusTrans.write 0x00 []]
    ∧ (Controller.software_reset s).log = s.log ++ [BusTrans.write 0x01 []]
    ∧ (Controller.enter_sleep_mode s).log = s.log ++ [BusTrans.write 0x10 []]
    ∧ (Controller.sleep_out s).log = s.log ++ [BusTrans.write 0x11 []]
    ∧ (Controller.partial_mode_on s).log = s.log ++ [BusTrans.write 0x12 []]
    ∧ (Controller.normal_display_mode_on s).log = s.log ++ [BusTrans.write 0x13 []]
    ∧ (Controller.memory_write_start s).log = s.log ++ [BusTrans.write 0x2c []]
    ∧ (Controller.memory_read_start s).log = s.log ++ [BusTrans.write 0x2e []]
    ∧ (Controller.write_memory_continue s).log = s.log ++ [BusTrans.write 0x3c []]
    ∧ (Controller.read_memory_continue s).log = s.log ++ [BusTrans.write 0x3e []] := by
  refine ⟨?_, ?_, ?_, ?_, ?_, ?_, ?_, ?_, ?_, ?_⟩ <;>
    simp [Controller.nop, Controller.software_reset, Controller.enter_sleep_mode,
      Controller.sleep_out, Controller.partial_mode_on, Controller.normal_display_mode_on,
      Controller.memory_write_start, Controller.memory_read_start,
      Controller.write_memory_continue, Controller.read_memory_continue,
      Controller.write_command, ifaceWriteParameters]

/-- C3: the tearing-effect command is encoded non-uniformly: `Off` is a
bare command at 0x34, `VBlankOnly` writes 0x35 with parameter `[0]`,
`HAndVBlank` writes 0x35 with parameter `[1]`, each as exactly one bus
write. -/
theorem tearing_effect_encoding (s : BusState) :
    (Controller.tearing_effect s TearingEffect.Off).log
      = s.log ++ [BusTrans.write 0x34 []]
    ∧ (Controller.tearing_effect s TearingEffect.VBlankOnly).log
      = s.log ++ [BusTrans.write 0x35 [0]]
    ∧ (Controller.tearing_effect s TearingEffect.HAndVBlank).log
      = s.log ++ [BusTrans.write 0x35 [1]] := by
  refine ⟨?_, ?_, ?_⟩ <;>
    simp [Controller.tearing_effect, Controller.write_parameters,
      Controller.write_command, ifaceWriteParameters]

/-- C4: each boolean-pair operation issues a bare command at the pair's
base opcode for `false` and base+1 for `true`: `display_inversion`
0x20/0x21, `display` 0x28/0x29, `idle_mode` 0x38/0x39, always with an
empty parameter sequence. -/
theorem boolean_pair_opcodes (s : BusState) :
    (Controller.display_inversion s false).log = s.log ++ [BusTrans.write 0x20 []]
    ∧ (Controller.display_inversion s true).log = s.log ++ [BusTrans.write 0x21 []]
    ∧ (Controller.display s false).log = s.log ++ [BusTrans.write 0x28 []]
    ∧ (Controller.display s true).log = s.log ++ [BusTrans.write 0x29 []]
    ∧ (Controller.idle_mode s false).log = s.log ++ [BusTrans.write 0x38 []]
    ∧ (Controller.idle_mode s true).log = s.log ++ [BusTrans.write 0x39 []] := by
  refine ⟨?_, ?_, ?_, ?_, ?_, ?_⟩ <;>
    simp [Controller.display_inversion, Controller.display, Controller.idle_mode,
      Controller.write_command, ifaceWriteParameters]

/-- C5: every snapshot-returning register read zero-fills a buffer of
the documented response length, performs exactly one `read_parameters`
call at the documented opcode (`read_display_identification` 0x04 with
3 bytes, `read_display_status` 0x09 with 4, `read_display_power_mode`
0x0A, `read_display_madctl` 0x0B, `read_pixel_format` 0x0C,
`read_image_format` 0x0D, `read_signal_mode` 0x0E,
`read_self_diagnostic_result` 0x0F, `read_ctrl_display` 0x54 with 1
byte each), and returns the bytes the bus placed in the buffer
unmodified, wrapped in the snapshot type. -/
theorem snapshot_reads (log : List BusTrans) (rest : List (List Nat))
    (r3 r4 r1 : List Nat) (h3 : r3.length = 3) (h4 : r4.length = 4) (h1 : r1.length = 1) :
    (Controller.read_display_identification ⟨log, r3 :: rest⟩).1
      = ⟨log ++ [BusTrans.read 0x04 3], rest⟩
    ∧ (Controller.read_display_identification ⟨log, r3 :: rest⟩).2.raw.val = r3
    ∧ (Controller.read_display_status ⟨log, r4 :: rest⟩).1
      = ⟨log ++ [BusTrans.read 0x09 4], rest⟩
    ∧ (Controller.read_display_status ⟨log, r4 :: rest⟩).2.raw.val = r4
    ∧ (Controller.read_display_power_mode ⟨log, r1 :: rest⟩).1
      = ⟨log ++ [BusTrans.read 0x0a 1], rest⟩
    ∧ (Controller.read_display_power_mode ⟨log, r1 :: rest⟩).2.raw.val = r1
    ∧ (Controller.read_display_madctl ⟨log, r1 :: rest⟩).1
      = ⟨log ++ [BusTrans.read 0x0b 1], rest⟩
    ∧ (Controller.read_display_madctl ⟨log, r1 :: rest⟩).2.raw.val = r1
    ∧ (Controller.read_pixel_format ⟨log, r1 :: rest⟩).1
      = ⟨log ++ [BusTrans.read 0x0c 1], rest⟩
    ∧ (Controller.read_pixel_format ⟨log, r1 :: rest⟩).2.raw.val = r1
    ∧ (Controller.read_image_format ⟨log, r1 :: rest⟩).1
      = ⟨log ++ [BusTrans.read 0x0d 1], rest⟩
    ∧ (Controller.read_image_format ⟨log, r1 :: rest⟩).2.raw.val = r1
    ∧ (Controller.read_signal_mode ⟨log, r1 :: rest⟩).1
      = ⟨log ++ [BusTrans.read 0x0e 1], rest⟩
    ∧ (Controller.read_signal_mode ⟨log, r1 :: rest⟩).2.raw.val = r1
    ∧ (Controller.read_self_diagnostic_result ⟨log, r1 :: rest⟩).1
      = ⟨log ++ [BusTrans.read 0x0f 1], rest⟩
    ∧ (Controller.read_self_diagnostic_result ⟨log, r1 :: rest⟩).2.raw.val = r1
    ∧ (Controller.read_ctrl_display ⟨log, r1 :: rest⟩).1
      = ⟨log ++ [BusTrans.read 0x54 1], rest⟩
    ∧ (Controller.read_ctrl_display ⟨log, r1 :: rest⟩).2.raw.val = r1 := by
  refine ⟨?_, ?_, ?_, ?_, ?_, ?_, ?_, ?_, ?_, ?_, ?_, ?_, ?_, ?_, ?_, ?_, ?_, ?_⟩ <;>
    simp [Controller.read_display_identification, Controller.read_display_status,
      Controller.read_display_power_mode, Controller.read_display_madctl,
      Controller.read_pixel_format, Controller.read_image_format,
      Controller.read_signal_mode, Controller.read_self_diagnostic_result,
      Controller.read_ctrl_display, Controller.read_parameters, ifaceReadParameters,
      DisplayIdentification.default, DisplayStatus.default, DisplayPowerMode.default,
      MADCtl.default, PixelFormat.default, ImageFormat.default, SignalMode.default,
      SelfDiagnosticResult.default, CtrlDisplay.default, ByteVec.zeroed,
      busFill_eq_self, h3, h4, h1]

/-- Witness for C5: concrete responses come back verbatim. -/
theorem snapshot_reads_witness :
    (Controller.read_display_identification ⟨[], [[1, 2, 3]]⟩).1
      = ⟨[BusTrans.read 0x04 3], []⟩
    ∧ (Controller.read_display_identification ⟨[], [[1, 2, 3]]⟩).2.raw.val = [1, 2, 3]
    ∧ (Controller.read_display_status ⟨[], [[4, 5, 6, 7]]⟩).1
      = ⟨[BusTrans.read 0x09 4], []⟩
    ∧ (Controller.read_display_status ⟨[], [[4, 5, 6, 7]]⟩).2.raw.val = [4, 5, 6, 7]
    ∧ (Controller.read_display_power_mode ⟨[], [[9]]⟩).1
      = ⟨[BusTrans.read 0x0a 1], []⟩
    ∧ (Controller.read_display_power_mode ⟨[], [[9]]⟩).2.raw.val = [9]
    ∧ (Controller.read_display_madctl ⟨[], [[9]]⟩).1 = ⟨[BusTrans.read 0x0b 1], []⟩
    ∧ (Controller.read_display_madctl ⟨[], [[9]]⟩).2.raw.val = [9]
    ∧ (Controller.read_pixel_format ⟨[], [[9]]⟩).1 = ⟨[BusTrans.read 0x0c 1], []⟩
    ∧ (Controller.read_pixel_format ⟨[], [[9]]⟩).2.raw.val = [9]
    ∧ (Controller.read_image_format ⟨[], [[9]]⟩).1 = ⟨[BusTrans.read 0x0d 1], []⟩
    ∧ (Controller.read_image_format ⟨[], [[9]]⟩).2.raw.val = [9]
    ∧ (Controller.read_signal_mode ⟨[], [[9]]⟩).1 = ⟨[BusTrans.read 0x0e 1], []⟩
    ∧ (Controller.read_signal_mode ⟨[], [[9]]⟩).2.raw.val = [9]
    ∧ (Controller.read_self_diagnostic_result ⟨[], [[9]]⟩).1
      = ⟨[BusTrans.read 0x0f 1], []⟩
    ∧ (Controller.read_self_diagnostic_result ⟨[], [[9]]⟩).2.raw.val = [9]
    ∧ (Controller.read_ctrl_display ⟨[], [[9]]⟩).1 = ⟨[BusTrans.read 0x54 1], []⟩
    ∧ (Controller.read_ctrl_display ⟨[], [[9]]⟩).2.raw.val = [9] := by
  simpa using snapshot_reads [] [] [1, 2, 3] [4, 5, 6, 7] [9]
    (by decide) (by decide) (by decide)

/-- C6: `get_scanline` performs one `read_parameters` call at 0x45 with
a zero-initialized 2-byte buffer and returns the big-endian reassembly
`b0 * 256 + b1` of the delivered bytes; `read_display_brightness` 0x52,
`read_cabc` 0x56, `read_cabc_minimum_brightness` 0x5F, `read_id1` 0xDA,
`read_id2` 0xDB and `read_id3` 0xDC each read one byte and return it as
the integer value. -/
theorem scalar_reads_big_endian (log : List BusTrans) (rest : List (List Nat))
    (b0 b1 : Nat) (hb0 : b0 < 256) (hb1 : b1 < 256) :
    Controller.get_scanline ⟨log, [b0, b1] :: rest⟩
      = (⟨log ++ [BusTrans.read 0x45 2], rest⟩, b0 * 256 + b1)
    ∧ Controller.read_display_brightness ⟨log, [b0] :: rest⟩
      = (⟨log ++ [BusTrans.read 0x52 1], rest⟩, b0)
    ∧ Controller.read_cabc ⟨log, [b0] :: rest⟩
      = (⟨log ++ [BusTrans.read 0x56 1], rest⟩, b0)
    ∧ Controller.read_cabc_minimum_brightness ⟨log, [b0] :: rest⟩
      = (⟨log ++ [BusTrans.read 0x5f 1], rest⟩, b0)
    ∧ Controller.read_id1 ⟨log, [b0] :: rest⟩
      = (⟨log ++ [BusTrans.read 0xda 1], rest⟩, b0)
    ∧ Controller.read_id2 ⟨log, [b0] :: rest⟩
      = (⟨log ++ [BusTrans.read 0xdb 1], rest⟩, b0)
    ∧ Controller.read_id3 ⟨log, [b0] :: rest⟩
      = (⟨log ++ [BusTrans.read 0xdc 1], rest⟩, b0) := by
  refine ⟨?_, ?_, ?_, ?_, ?_, ?_, ?_⟩ <;>
    simp [Controller.get_scanline, Controller.read_display_brightness,
      Controller.read_cabc, Controller.read_cabc_minimum_brightness,
      Controller.read_id1, Controller.read_id2, Controller.read_id3,
      Controller.read_parameters, ifaceReadParameters, busFill,
      byte_lor_eq_add b0 b1 hb1]

/-- Witness for C6: bytes 0x12, 0x34 reassemble to 0x1234. -/
theorem scalar_reads_big_endian_witness :
    Controller.get_scanline ⟨[], [[0x12, 0x34]]⟩
      = (⟨[BusTrans.read 0x45 2], []⟩, 0x1234)
    ∧ Controller.read_display_brightness ⟨[], [[0x12]]⟩
      = (⟨[BusTrans.read 0x52 1], []⟩, 0x12)
    ∧ Controller.read_cabc ⟨[], [[0x12]]⟩ = (⟨[BusTrans.read 0x56 1], []⟩, 0x12)
    ∧ Controller.read_cabc_minimum_brightness ⟨[], [[0x12]]⟩
      = (⟨[BusTrans.read 0x5f 1], []⟩, 0x12)
    ∧ Controller.read_id1 ⟨[], [[0x12]]⟩ = (⟨[BusTrans.read 0xda 1], []⟩, 0x12)
    ∧ Controller.read_id2 ⟨[], [[0x12]]⟩ = (⟨[BusTrans.read 0xdb 1], []⟩, 0x12)
    ∧ Controller.read_id3 ⟨[], [[0x12]]⟩ = (⟨[BusTrans.read 0xdc 1], []⟩, 0x12) := by
  simpa using scalar_reads_big_endian [] [] 0x12 0x34 (by decide) (by decide)

/-- C7: each typed-value write forwards the caller's fixed-length byte
container unchanged in one `write_parameters` call: `color_set` sends
all 128 bytes at 0x2D (its input type admits no other length), and
`memory_access_control` 0x36, `pixel_format_set` 0x3A and
`write_ctrl_display` 0x53 forward their 1-byte raw values. -/
theorem typed_value_writes (s : BusState) (data : ByteVec 128)
    (mac : MemoryAccessControl) (pf : PixelFormat) (cd : CtrlDisplay) :
    (Controller.color_set s data).log = s.log ++ [BusTrans.write 0x2d data.val]
    ∧ data.val.length = 128
    ∧ (Controller.memory_access_control s mac).log
      = s.log ++ [BusTrans.write 0x36 mac.raw.val]
    ∧ mac.raw.val.length = 1
    ∧ (Controller.pixel_format_set s pf).log = s.log ++ [BusTrans.write 0x3a pf.raw.val]
    ∧ pf.raw.val.length = 1
    ∧ (Controller.write_ctrl_display s cd).log = s.log ++ [BusTrans.write 0x53 cd.raw.val]
    ∧ cd.raw.val.length = 1 := by
  refine ⟨?_, data.property, ?_, mac.raw.property, ?_, pf.raw.property, ?_, cd.raw.property⟩ <;>
    simp [Controller.color_set, Controller.memory_access_control,
      Controller.pixel_format_set, Controller.write_ctrl_display,
      Controller.write_parameters, ifaceWriteParameters]

/-- C8: encoder operations run in strict program order with no
reordering, batching or coalescing: running any list of invocations
appends exactly the concatenation of the per-invocation transaction
traces, in invocation order; in particular `sleep_out()` then
`display(true)` yields exactly the writes (0x11, []) then (0x29, [])
and nothing else. -/
theorem program_order_traces (s : BusState) (ops : List Op) :
    (runAll ops s).log = s.log ++ (ops.map opTrace).flatten
    ∧ (run (Op.display true) (run Op.sleep_out s)).log
      = s.log ++ [BusTrans.write 0x11 [], BusTrans.write 0x29 []] := by
  constructor
  · induction ops generalizing s with
    | nil => simp [runAll]
    | cons op ops ih =>
        simp only [runAll, List.foldl_cons, List.map_cons, List.flatten_cons]
        rw [show List.foldl (fun t op => run op t) (run op s) ops
              = runAll ops (run op s) from rfl, ih, run_log, List.append_assoc]
  · rw [run_log, run_log, List.append_assoc]
    rfl

/-- C9: every register snapshot type is a fixed-length byte container of
exactly the protocol's read-response length (`DisplayIdentification` 3,
`DisplayStatus` 4, `DisplayPowerMode`, `MADCtl`, `PixelFormat`,
`ImageFormat`, `SignalMode`, `SelfDiagnosticResult`,
`MemoryAccessControl`, `CtrlDisplay` 1 each) — the length cannot vary at
runtime — and default construction yields all-zero bytes. -/
theorem snapshot_types_fixed_length
    (a : DisplayIdentification) (b : DisplayStatus) (c : DisplayPowerMode) (d : MADCtl)
    (e : PixelFormat) (f : ImageFormat) (g : SignalMode) (h : SelfDiagnosticResult)
    (i : MemoryAccessControl) (j : CtrlDisplay) :
    (a.raw.val.length = 3 ∧ b.raw.val.length = 4 ∧ c.raw.val.length = 1
      ∧ d.raw.val.length = 1 ∧ e.raw.val.length = 1 ∧ f.raw.val.length = 1
      ∧ g.raw.val.length = 1 ∧ h.raw.val.length = 1 ∧ i.raw.val.length = 1
      ∧ j.raw.val.length = 1)
    ∧ (DisplayIdentification.default.raw.val = List.replicate 3 0
      ∧ DisplayStatus.default.raw.val = List.replicate 4 0
      ∧ DisplayPowerMode.default.raw.val = List.replicate 1 0
      ∧ MADCtl.default.raw.val = List.replicate 1 0
      ∧ PixelFormat.default.raw.val = List.replicate 1 0
      ∧ ImageFormat.default.raw.val = List.replicate 1 0
      ∧ SignalMode.default.raw.val = List.replicate 1 0
      ∧ SelfDiagnosticResult.default.raw.val = List.replicate 1 0
      ∧ MemoryAccessControl.default.raw.val = List.replicate 1 0
      ∧ CtrlDisplay.default.raw.val = List.replicate 1 0) :=
  ⟨⟨a.raw.property, b.raw.property, c.raw.property, d.raw.property, e.raw.property,
    f.raw.property, g.raw.property, h.raw.property, i.raw.property, j.raw.property⟩,
   rfl, rfl, rfl, rfl, rfl, rfl, rfl, rfl, rfl, rfl⟩

/-- C10: every encoder operation is deterministic and depends only on
its explicit arguments — the transactions an invocation emits (the log
entries past the starting log) are identical for any two bus states it
is run against; no hidden encoder state influences the bytes sent. -/
theorem operations_deterministic (s₁ s₂ : BusState) (op : Op) :
    (run op s₁).log.drop s₁.log.length = (run op s₂).log.drop s₂.log.length := by
  rw [run_log, run_log, List.drop_left, List.drop_left]

end Ili9341
